import Mathlib

/-
Verification development for the figure-generation script
src/figures/create_figures.py of the XNLP technical survey repository.

The script is a linear sequence of matplotlib draw calls.  We embed it
shallowly: coordinates become rationals, each node-drawing helper becomes a
function returning a record that carries the drawn attributes and the anchor
dictionary the Python helper returns, connector helpers become functions
returning lists of line segments, and each per-figure routine becomes a
function from the module palette to a Figure record collecting everything the
routine draws plus the files it saves.  The module-level palette COLORS is
threaded through the routines as explicit state (a routine returns the
palette it leaves behind), mirroring the fact that the Python code never
assigns to the global.
-/

namespace CreateFigures

/-- Points on the drawing canvas, as pairs of rationals. -/
abbrev Pt := ℚ × ℚ

/-- The module palette: an association list from semantic names to colors. -/
abbrev Palette := List (String × String)

/-- Embedding of the module-level COLORS dictionary (lines 26 to 54). -/
def COLORS : Palette :=
  [("root", "#263238"),
   ("local", "#1565C0"),
   ("local_bg", "#E3F2FD"),
   ("local_border", "#1976D2"),
   ("global", "#2E7D32"),
   ("global_bg", "#E8F5E9"),
   ("global_border", "#388E3C"),
   ("llm", "#E65100"),
   ("llm_bg", "#FFF3E0"),
   ("llm_border", "#EF6C00"),
   ("method", "#F5F5F5"),
   ("text_primary", "#212121"),
   ("connector", "#616161"),
   ("arrow", "#616161"),
   ("decision", "#F39C12"),
   ("recommend", "#9B59B6")]

/-- Palette lookup, as in a Python subscript COLORS[k] (every key used by the
script is present, so the default is never reached). -/
def colorsGet (p : Palette) (k : String) : String :=
  (p.lookup k).getD ""

/-- A drawn node: shape kind, center, label, fill and text colors, font size,
boldness, and the anchor dictionary the helper returns. -/
structure Node where
  shape : String
  x : ℚ
  y : ℚ
  label : String
  fill : String
  textColor : String
  fontsize : ℚ
  bold : Bool
  w : ℚ
  h : ℚ
  anchors : List (String × Pt)
deriving Repr, DecidableEq

/-- Anchor access, as in a Python subscript node[k] on the returned dict. -/
def anchorD (n : Node) (k : String) : Pt :=
  (n.anchors.lookup k).getD (0, 0)

/-- A drawn line segment with its color and line width. -/
structure Seg where
  p : Pt
  q : Pt
  color : String
  lw : ℚ
deriving Repr, DecidableEq

/-- A straight annotated arrow (draw_arrow, lines 293 to 304). -/
structure Arrow where
  src : Pt
  dst : Pt
  label : String
deriving Repr, DecidableEq

/-- An elbow arrow: horizontal run to mid_x, then vertical run to the end
point (draw_elbow_arrow, lines 306 to 321). -/
structure ElbowArrow where
  src : Pt
  midX : ℚ
  dst : Pt
  label : String
  labelPos : String
deriving Repr, DecidableEq

/-- One call to draw_tree_connection: the parent bottom anchor, the list of
child top anchors in caller order, the color and the line width. -/
structure TreeCall where
  parent : Pt
  children : List Pt
  color : String
  lw : ℚ
deriving Repr, DecidableEq

/-- draw_root (lines 85 to 98): root box, returns center, bottom, top. -/
def draw_root (p : Palette) (x y : ℚ) (text : String) : Node :=
  { shape := "root", x := x, y := y, label := text,
    fill := colorsGet p "root", textColor := "white",
    fontsize := 11, bold := true, w := 4, h := 4/5,
    anchors := [("center", (x, y)), ("bottom", (x, y - 2/5)), ("top", (x, y + 2/5))] }

/-- draw_category (lines 100 to 114): category box, returns center, bottom,
top. -/
def draw_category (p : Palette) (x y : ℚ) (text category : String) : Node :=
  { shape := "category", x := x, y := y, label := text,
    fill := colorsGet p (category ++ "_bg"), textColor := colorsGet p category,
    fontsize := 11, bold := true, w := 18/5, h := 7/10,
    anchors := [("center", (x, y)), ("bottom", (x, y - 7/20)), ("top", (x, y + 7/20))] }

/-- draw_method (lines 116 to 127): text-only method node, returns only
center and top (the source returns no bottom key). -/
def draw_method (p : Palette) (x y : ℚ) (text : String) : Node :=
  { shape := "method", x := x, y := y, label := text,
    fill := "white", textColor := colorsGet p "text_primary",
    fontsize := 9, bold := false, w := 0, h := 0,
    anchors := [("center", (x, y)), ("top", (x, y + 1/5))] }

/-- draw_diamond (lines 256 to 266): decision diamond, returns top, bottom,
left, right (no center key). -/
def draw_diamond (x y : ℚ) (text color : String) (size : ℚ) : Node :=
  { shape := "diamond", x := x, y := y, label := text,
    fill := color, textColor := "#2C3E50",
    fontsize := 8, bold := true, w := 2 * size, h := 2 * size,
    anchors := [("top", (x, y + size)), ("bottom", (x, y - size)),
                ("left", (x - size, y)), ("right", (x + size, y))] }

/-- draw_rect (lines 268 to 279): recommendation rectangle, returns top,
bottom, left, right (no center key). -/
def draw_rect (x y : ℚ) (text color : String) (width height : ℚ) : Node :=
  { shape := "rect", x := x, y := y, label := text,
    fill := color, textColor := "white",
    fontsize := 15/2, bold := true, w := width, h := height,
    anchors := [("top", (x, y + height/2)), ("bottom", (x, y - height/2)),
                ("left", (x - width/2, y)), ("right", (x + width/2, y))] }

/-- draw_start (lines 281 to 291): start capsule, returns bottom and top
only (no center key). -/
def draw_start (x y : ℚ) (text color : String) : Node :=
  { shape := "start", x := x, y := y, label := text,
    fill := color, textColor := "white",
    fontsize := 11, bold := true, w := 3, h := 4/5,
    anchors := [("bottom", (x, y - 2/5)), ("top", (x, y + 2/5))] }

/-- Text-color choice inside draw_box (line 439): white when the fill color
is one of COLORS root, #3498DB, #27AE60, #E67E22, dark slate otherwise. -/
def draw_box_text_color (p : Palette) (color : String) : String :=
  if color ∈ [colorsGet p "root", "#3498DB", "#27AE60", "#E67E22"]
  then "white" else "#2C3E50"

/-- draw_box (lines 429 to 442): rounded box, returns center, bottom, top. -/
def draw_box (p : Palette) (x y : ℚ) (text color : String)
    (width height fontsize : ℚ) (bold : Bool) : Node :=
  { shape := "box", x := x, y := y, label := text,
    fill := color, textColor := draw_box_text_color p color,
    fontsize := fontsize, bold := bold, w := width, h := height,
    anchors := [("center", (x, y)), ("bottom", (x, y - height/2)),
                ("top", (x, y + height/2))] }

/-- Minimum child x coordinate, as min(c[0] for c in children_tops) over a
non-empty list written as a head and a tail. -/
def childMinX (c : Pt) (cs : List Pt) : ℚ :=
  (cs.map Prod.fst).foldl min c.1

/-- Maximum child x coordinate, as max(c[0] for c in children_tops). -/
def childMaxX (c : Pt) (cs : List Pt) : ℚ :=
  (cs.map Prod.fst).foldl max c.1

/-- draw_tree_connection (lines 129 to 143): on an empty child list nothing
is drawn; otherwise a vertical from the parent to a bar 0.3 units below, a
horizontal bar from the least to the greatest child x, and one vertical stub
per child in caller order. -/
def draw_tree_connection (parent_bottom : Pt) (children_tops : List Pt)
    (color : String) (lw : ℚ) : List Seg :=
  match children_tops with
  | [] => []
  | c :: cs =>
    let bar_y := parent_bottom.2 - 3/10
    { p := parent_bottom, q := (parent_bottom.1, bar_y), color := color, lw := lw } ::
    { p := (childMinX c cs, bar_y), q := (childMaxX c cs, bar_y),
      color := color, lw := lw } ::
    (c :: cs).map (fun ch => { p := (ch.1, bar_y), q := ch, color := color, lw := lw })

/-- draw_elbow_connection (lines 444 to 449): vertical, horizontal at the
midpoint height, then vertical. -/
def draw_elbow_connection (s e : Pt) (color : String) (lw : ℚ) : List Seg :=
  let mid_y := (s.2 + e.2) / 2
  [{ p := (s.1, s.2), q := (s.1, mid_y), color := color, lw := lw },
   { p := (s.1, mid_y), q := (e.1, mid_y), color := color, lw := lw },
   { p := (e.1, mid_y), q := (e.1, e.2), color := color, lw := lw }]

/-- draw_vertical_connection (lines 451 to 453): one straight segment. -/
def draw_vertical_connection (s e : Pt) (color : String) (lw : ℚ) : List Seg :=
  [{ p := s, q := e, color := color, lw := lw }]

/-- Everything one figure routine draws and saves. -/
structure Figure where
  regions : List (ℚ × ℚ × String × String)
  nodes : List Node
  treeCalls : List TreeCall
  segments : List Seg
  arrows : List Arrow
  elbows : List ElbowArrow
  freeTexts : List (Pt × String)
  annots : List (Pt × String × String)
  scatter : List (ℚ × ℚ × String × String)
  legend : List String
  caption : Option String
  title : Option String
  saved : List String
deriving Repr, DecidableEq

/-- Vertical center of the method level in the taxonomy (line 165). -/
def taxonomy_method_y : ℚ := 5/2

/-- Root node of the taxonomy figure (line 151). -/
def taxonomy_root (p : Palette) : Node :=
  draw_root p 8 (36/5) "Explainable NLP Methods"

/-- Local category node of the taxonomy figure (line 155). -/
def taxonomy_local_cat (p : Palette) : Node :=
  draw_category p 3 (11/2) "Local Explanations\n(Single Prediction)" "local"

/-- Global category node of the taxonomy figure (line 156). -/
def taxonomy_global_cat (p : Palette) : Node :=
  draw_category p 8 (11/2) "Global Explanations\n(Model-Wide)" "global"

/-- LLM category node of the taxonomy figure (line 157). -/
def taxonomy_llm_cat (p : Palette) : Node :=
  draw_category p 13 (11/2) "LLM-Era Methods" "llm"

/-- The twelve local method nodes, in source order (lines 168 to 183). -/
def taxonomy_local_methods (p : Palette) : List Node :=
  [draw_method p (4/5) (taxonomy_method_y + 3/5) "LIME",
   draw_method p (8/5) (taxonomy_method_y + 3/5) "SHAP",
   draw_method p (12/5) (taxonomy_method_y + 3/5) "Anchors",
   draw_method p (4/5) taxonomy_method_y "Integrated\nGradients",
   draw_method p (9/5) taxonomy_method_y "LRP",
   draw_method p (13/5) taxonomy_method_y "DeepLIFT",
   draw_method p (7/2) (taxonomy_method_y + 3/5) "Attention\nWeights",
   draw_method p (9/2) (taxonomy_method_y + 3/5) "Attention\nRollout",
   draw_method p (7/2) taxonomy_method_y "Counterfactual",
   draw_method p (9/2) taxonomy_method_y "Contrastive",
   draw_method p (7/2) (taxonomy_method_y - 3/5) "Influence\nFunctions",
   draw_method p (9/2) (taxonomy_method_y - 3/5) "Prototypes"]

/-- The four global method nodes, in source order (lines 191 to 195). -/
def taxonomy_global_methods (p : Palette) : List Node :=
  [draw_method p (13/2) taxonomy_method_y "Rule\nExtraction",
   draw_method p (15/2) taxonomy_method_y "SHAP\nGlobal",
   draw_method p (17/2) taxonomy_method_y "TCAV",
   draw_method p (19/2) taxonomy_method_y "Diagnostic\nClassifiers"]

/-- The six LLM-era method nodes, in source order (lines 203 to 212). -/
def taxonomy_llm_methods (p : Palette) : List Node :=
  [draw_method p (23/2) (taxonomy_method_y + 3/5) "Chain-of-Thought\nZero-shot",
   draw_method p 13 (taxonomy_method_y + 3/5) "Chain-of-Thought\nFew-shot",
   draw_method p (23/2) taxonomy_method_y "Self-Critique",
   draw_method p 13 taxonomy_method_y "Rationale\nGeneration",
   draw_method p (61/5) (taxonomy_method_y - 3/5) "Mechanistic\nCircuits",
   draw_method p (69/5) (taxonomy_method_y - 3/5) "Feature\nAnalysis"]

/-- The four draw_tree_connection calls of the taxonomy routine, in source
order (lines 160, 186, 198, 215): root to the three categories, then one call
per category listing all of the methods of that category. -/
def taxonomy_tree_calls (p : Palette) : List TreeCall :=
  [{ parent := anchorD (taxonomy_root p) "bottom",
     children := [anchorD (taxonomy_local_cat p) "top",
                  anchorD (taxonomy_global_cat p) "top",
                  anchorD (taxonomy_llm_cat p) "top"],
     color := colorsGet p "connector", lw := 2 },
   { parent := anchorD (taxonomy_local_cat p) "bottom",
     children := (taxonomy_local_methods p).map (fun m => anchorD m "top"),
     color := colorsGet p "local", lw := 9/5 },
   { parent := anchorD (taxonomy_global_cat p) "bottom",
     children := (taxonomy_global_methods p).map (fun m => anchorD m "top"),
     color := colorsGet p "global", lw := 3/2 },
   { parent := anchorD (taxonomy_llm_cat p) "bottom",
     children := (taxonomy_llm_methods p).map (fun m => anchorD m "top"),
     color := colorsGet p "llm", lw := 3/2 }]

/-- create_taxonomy_diagram (lines 57 to 245), as the Figure it draws. -/
def create_taxonomy_diagram_fig (p : Palette) : Figure :=
  { regions := [(1/2, 5, colorsGet p "local_bg", "///"),
                (11/2, 5, colorsGet p "global_bg", "..."),
                (21/2, 5, colorsGet p "llm_bg", "xxx")],
    nodes := taxonomy_root p ::
      [taxonomy_local_cat p, taxonomy_global_cat p, taxonomy_llm_cat p] ++
      taxonomy_local_methods p ++ taxonomy_global_methods p ++ taxonomy_llm_methods p,
    treeCalls := taxonomy_tree_calls p,
    segments := ((taxonomy_tree_calls p).map
      (fun c => draw_tree_connection c.parent c.children c.color c.lw)).flatten,
    arrows := [], elbows := [],
    freeTexts := [((8, 2/5), "Figure 4: Taxonomy of Explainable NLP Methods")],
    annots := [], scatter := [],
    legend := ["Local Methods", "Global Methods", "LLM-Era Methods"],
    caption := some "Figure 4: Taxonomy of Explainable NLP Methods",
    title := none,
    saved := ["taxonomy_diagram.pdf", "taxonomy_diagram.png"] }

/-- Start node of the decision tree (line 324). -/
def dt_start : Node := draw_start (15/2) (93/10) "Select XAI Method" "#27AE60"

/-- Model access decision diamond (line 327). -/
def dt_d1 (p : Palette) : Node :=
  draw_diamond (15/2) (39/5) "Model\nAccess?" (colorsGet p "decision") (7/10)

/-- Explanation scope diamond on the full-access path (line 333). -/
def dt_d2_full (p : Palette) : Node :=
  draw_diamond (14/5) 6 "Explanation\nScope?" (colorsGet p "decision") (7/10)

/-- Local recommendation rectangle on the full-access path (line 337). -/
def dt_r_local : Node :=
  draw_rect (13/10) 4 "Integrated Gradients\nAttention\nSHAP" "#3498DB" 2 (9/10)

/-- Global recommendation rectangle on the full-access path (line 342). -/
def dt_r_global : Node :=
  draw_rect (19/5) 4 "Probing Classifiers\nTCAV\nDistillation" "#27AE60" 2 (9/10)

/-- LLM question diamond on the API-access path (line 347). -/
def dt_d2_api (p : Palette) : Node :=
  draw_diamond (15/2) 6 "Is it\nan LLM?" (colorsGet p "decision") (7/10)

/-- Recommendation for an LLM behind an API (line 351). -/
def dt_r_llm_yes : Node :=
  draw_rect (13/2) 4 "Chain-of-Thought\nSelf-Explanation" "#E67E22" 2 (4/5)

/-- Recommendation for a non-LLM behind an API (line 356). -/
def dt_r_llm_no : Node :=
  draw_rect 9 4 "LIME\nAnchors" "#9B59B6" (8/5) (7/10)

/-- Recommendation for the black-box path (line 361). -/
def dt_r_blackbox : Node :=
  draw_rect (25/2) 6 "LIME\nCounterfactuals\nAnchors" "#8E44AD" 2 (9/10)

/-- Audience entries iterated by the loop at lines 379 to 398: x, y, title,
description, color. -/
def dt_audiences : List (ℚ × ℚ × String × String × String) :=
  [(2, 3/2, "End Users", "Simple highlights\nNatural language", "#1ABC9C"),
   (11/2, 3/2, "Domain Experts", "Feature importance\nDomain terms", "#3498DB"),
   (19/2, 3/2, "ML Practitioners", "Gradients\nAttention maps", "#E74C3C"),
   (13, 3/2, "Regulators", "Auditable\nMethodology", "#95A5A6")]

/-- create_decision_tree (lines 248 to 418), as the Figure it draws. -/
def create_decision_tree_fig (p : Palette) : Figure :=
  { regions := [(1/2, 14, "#F8F9F9", "")],
    nodes := [dt_start, dt_d1 p, dt_d2_full p, dt_r_local, dt_r_global,
              dt_d2_api p, dt_r_llm_yes, dt_r_llm_no, dt_r_blackbox],
    treeCalls := [], segments := [],
    arrows := [{ src := anchorD dt_start "bottom", dst := anchorD (dt_d1 p) "top",
                 label := "" },
               { src := anchorD (dt_d1 p) "bottom", dst := anchorD (dt_d2_api p) "top",
                 label := "API Only" }],
    elbows := [{ src := anchorD (dt_d1 p) "left", midX := 14/5,
                 dst := anchorD (dt_d2_full p) "top",
                 label := "Full Access", labelPos := "start" },
               { src := anchorD (dt_d2_full p) "left", midX := 13/10,
                 dst := anchorD dt_r_local "top",
                 label := "Local", labelPos := "start" },
               { src := anchorD (dt_d2_full p) "right", midX := 19/5,
                 dst := anchorD dt_r_global "top",
                 label := "Global", labelPos := "start" },
               { src := anchorD (dt_d2_api p) "left", midX := 13/2,
                 dst := anchorD dt_r_llm_yes "top",
                 label := "Yes", labelPos := "start" },
               { src := anchorD (dt_d2_api p) "right", midX := 9,
                 dst := anchorD dt_r_llm_no "top",
                 label := "No", labelPos := "start" },
               { src := anchorD (dt_d1 p) "right", midX := 25/2,
                 dst := anchorD dt_r_blackbox "top",
                 label := "Black-box", labelPos := "start" }],
    freeTexts := ((15/2, 53/20), "Tailor Explanations to Target Audience") ::
      (dt_audiences.map (fun a => ((a.1, a.2.1 + 2/5), a.2.2.1)) ++
       dt_audiences.map (fun a => ((a.1, a.2.1 - 1/4), a.2.2.2.1)) ++
       [((15/2, 1/4), "Figure 2: Decision Tree for Selecting Explainability Methods")]),
    annots := [], scatter := [],
    legend := ["Decision Point", "Recommendation"],
    caption := some "Figure 2: Decision Tree for Selecting Explainability Methods",
    title := none,
    saved := ["decision_tree.pdf", "decision_tree.png"] }

/-- Root box of the explainability approaches figure (line 456). -/
def ea_root (p : Palette) : Node :=
  draw_box p 7 (73/10) "Explainability Approaches" (colorsGet p "root")
    4 (13/20) 13 true

/-- Timing dimension box (line 464). -/
def ea_timing (p : Palette) : Node :=
  draw_box p (5/2) (29/5) "By Timing" "#3498DB" 2 (11/20) 10 true

/-- Scope dimension box (line 465). -/
def ea_scope (p : Palette) : Node :=
  draw_box p 7 (29/5) "By Scope" "#27AE60" 2 (11/20) 10 true

/-- Model access dimension box (line 466). -/
def ea_access (p : Palette) : Node :=
  draw_box p (23/2) (29/5) "By Model Access" "#E67E22" (12/5) (11/20) 10 true

/-- Direct interpretability subcategory box (line 479). -/
def ea_direct (p : Palette) : Node :=
  draw_box p (3/2) (43/10) "Direct\nInterpretability" "#AED6F1" (9/5) (13/20) 8 false

/-- Post-hoc subcategory box (line 480). -/
def ea_posthoc (p : Palette) : Node :=
  draw_box p (7/2) (43/10) "Post-hoc\nExplanation" "#AED6F1" (9/5) (13/20) 8 false

/-- Local scope subcategory box (line 485). -/
def ea_local (p : Palette) : Node :=
  draw_box p 6 (43/10) "Local\n(Per Instance)" "#A9DFBF" (9/5) (13/20) 8 false

/-- Global scope subcategory box (line 486). -/
def ea_global_exp (p : Palette) : Node :=
  draw_box p 8 (43/10) "Global\n(Model-Wide)" "#A9DFBF" (9/5) (13/20) 8 false

/-- Model-specific subcategory box (line 491). -/
def ea_specific (p : Palette) : Node :=
  draw_box p (21/2) (43/10) "Model-\nSpecific" "#FAD7A0" (17/10) (13/20) 8 false

/-- Model-agnostic subcategory box (line 492). -/
def ea_agnostic (p : Palette) : Node :=
  draw_box p (25/2) (43/10) "Model-\nAgnostic" "#FAD7A0" (17/10) (13/20) 8 false

/-- Example box under direct interpretability (line 501). -/
def ea_direct_ex (p : Palette) : Node :=
  draw_box p (3/2) (14/5) "Decision Trees\nLinear Models\nRule Lists" "#F8F9F9"
    (17/10) (17/20) 7 false

/-- Example box under post-hoc explanation (line 506). -/
def ea_posthoc_ex (p : Palette) : Node :=
  draw_box p (7/2) (14/5) "LIME\nSHAP\nAnchors" "#F8F9F9" (17/10) (17/20) 7 false

/-- Example box under local scope (line 511). -/
def ea_local_ex (p : Palette) : Node :=
  draw_box p 6 (14/5) "Feature Attribution\nCounterfactuals\nInfluence Functions"
    "#F8F9F9" 2 (17/20) 7 false

/-- Example box under global scope (line 516). -/
def ea_global_ex (p : Palette) : Node :=
  draw_box p 8 (14/5) "Model Distillation\nProbing Classifiers\nTCAV" "#F8F9F9"
    2 (17/20) 7 false

/-- Example box under model-specific access (line 521). -/
def ea_specific_ex (p : Palette) : Node :=
  draw_box p (21/2) (14/5) "Attention Viz\nLRP\nDeepLIFT" "#F8F9F9"
    (17/10) (17/20) 7 false

/-- Example box under model-agnostic access (line 526). -/
def ea_agnostic_ex (p : Palette) : Node :=
  draw_box p (25/2) (14/5) "LIME\nSHAP\nAnchors" "#F8F9F9" (17/10) (17/20) 7 false

/-- The connector segments of the explainability figure, in source order
(lines 469 to 528). -/
def ea_segments (p : Palette) : List Seg :=
  draw_elbow_connection (anchorD (ea_root p) "bottom") (anchorD (ea_timing p) "top")
    "#5D6D7E" (3/2) ++
  draw_vertical_connection (anchorD (ea_root p) "bottom") (anchorD (ea_scope p) "top")
    "#5D6D7E" (3/2) ++
  draw_elbow_connection (anchorD (ea_root p) "bottom") (anchorD (ea_access p) "top")
    "#5D6D7E" (3/2) ++
  draw_elbow_connection (anchorD (ea_timing p) "bottom") (anchorD (ea_direct p) "top")
    "#3498DB" (6/5) ++
  draw_elbow_connection (anchorD (ea_timing p) "bottom") (anchorD (ea_posthoc p) "top")
    "#3498DB" (6/5) ++
  draw_elbow_connection (anchorD (ea_scope p) "bottom") (anchorD (ea_local p) "top")
    "#27AE60" (6/5) ++
  draw_elbow_connection (anchorD (ea_scope p) "bottom") (anchorD (ea_global_exp p) "top")
    "#27AE60" (6/5) ++
  draw_elbow_connection (anchorD (ea_access p) "bottom") (anchorD (ea_specific p) "top")
    "#E67E22" (6/5) ++
  draw_elbow_connection (anchorD (ea_access p) "bottom") (anchorD (ea_agnostic p) "top")
    "#E67E22" (6/5) ++
  draw_vertical_connection (anchorD (ea_direct p) "bottom") (anchorD (ea_direct_ex p) "top")
    "#85C1E9" (6/5) ++
  draw_vertical_connection (anchorD (ea_posthoc p) "bottom") (anchorD (ea_posthoc_ex p) "top")
    "#85C1E9" (6/5) ++
  draw_vertical_connection (anchorD (ea_local p) "bottom") (anchorD (ea_local_ex p) "top")
    "#58D68D" (6/5) ++
  draw_vertical_connection (anchorD (ea_global_exp p) "bottom") (anchorD (ea_global_ex p) "top")
    "#58D68D" (6/5) ++
  draw_vertical_connection (anchorD (ea_specific p) "bottom") (anchorD (ea_specific_ex p) "top")
    "#F5B041" (6/5)

/-- create_explainability_approaches (lines 421 to 543), as the Figure it
draws.  Note the routine draws no caption text: after the legend it saves the
two files directly. -/
def create_explainability_approaches_fig (p : Palette) : Figure :=
  { regions := [],
    nodes := [ea_root p, ea_timing p, ea_scope p, ea_access p,
              ea_direct p, ea_posthoc p, ea_local p, ea_global_exp p,
              ea_specific p, ea_agnostic p,
              ea_direct_ex p, ea_posthoc_ex p, ea_local_ex p, ea_global_ex p,
              ea_specific_ex p, ea_agnostic_ex p],
    treeCalls := [],
    segments := ea_segments p ++
      draw_vertical_connection (anchorD (ea_agnostic p) "bottom")
        (anchorD (ea_agnostic_ex p) "top") "#F5B041" (6/5),
    arrows := [], elbows := [], freeTexts := [],
    annots := [], scatter := [],
    legend := ["By Timing", "By Scope", "By Model Access"],
    caption := none, title := none,
    saved := ["explainability_approaches.pdf", "explainability_approaches.png"] }

/-- The model data list of the trade-off scatter plot (lines 552 to 559):
accuracy, interpretability, name, color. -/
def acc_models : List (ℚ × ℚ × String × String) :=
  [(7/2, 19/2, "Linear Regression", "#27AE60"),
   (9/2, 17/2, "Decision Trees", "#2ECC71"),
   (6, 6, "K-Nearest Neighbors", "#F39C12"),
   (7, 9/2, "Random Forests", "#E67E22"),
   (39/5, 3, "Support Vector Machines", "#E74C3C"),
   (9, 3/2, "Deep Neural Networks", "#9B59B6")]

/-- The if-elif chain at lines 590 to 601 choosing a label offset and a
horizontal alignment from the model name. -/
def accLabelOffset (name : String) : ℚ × ℚ × String :=
  if name = "Linear Regression" then (2/5, 0, "left")
  else if name = "Decision Trees" then (2/5, -1/10, "left")
  else if name = "K-Nearest Neighbors" then (2/5, 0, "left")
  else if name = "Random Forests" then (2/5, 0, "left")
  else if name = "Support Vector Machines" then (-2/5, 0, "right")
  else (2/5, -1/10, "left")

/-- create_accuracy_interpretability (lines 546 to 644), as the Figure it
draws.  The dashed trade-off curve and corner zone polygons are continuous
plot artifacts with no role in the discrete draw data recorded here; the
scatter points, the per-model annotations after the offset chain, the corner
labels and the axes title are recorded. -/
def create_accuracy_interpretability_fig (_p : Palette) : Figure :=
  { regions := [], nodes := [], treeCalls := [], segments := [],
    arrows := [], elbows := [],
    freeTexts := [((9/5, 99/10), "High Interpretability\nLower Accuracy"),
                  ((87/10, 9/10), "High Accuracy\nLower Interpretability")],
    annots := acc_models.map (fun m =>
      ((m.1 + (accLabelOffset m.2.2.1).1, m.2.1 + (accLabelOffset m.2.2.1).2.1),
       m.2.2.1, (accLabelOffset m.2.2.1).2.2)),
    scatter := acc_models,
    legend := [],
    caption := none,
    title := some "Accuracy-Interpretability Trade-off in Machine Learning",
    saved := ["accuracy_interpretability.pdf", "accuracy_interpretability.png"] }

/-- create_taxonomy_diagram as a state transformer on the module palette: the
routine reads the palette and never writes it. -/
def create_taxonomy_diagram (p : Palette) : Figure × Palette :=
  (create_taxonomy_diagram_fig p, p)

/-- create_decision_tree as a state transformer on the module palette. -/
def create_decision_tree (p : Palette) : Figure × Palette :=
  (create_decision_tree_fig p, p)

/-- create_explainability_approaches as a state transformer on the module
palette. -/
def create_explainability_approaches (p : Palette) : Figure × Palette :=
  (create_explainability_approaches_fig p, p)

/-- create_accuracy_interpretability as a state transformer on the module
palette. -/
def create_accuracy_interpretability (p : Palette) : Figure × Palette :=
  (create_accuracy_interpretability_fig p, p)

/-- The main block (lines 647 to 655): the four routines run in order, each
finishing before the next starts, threading the module palette. -/
def script_main (p : Palette) : List Figure × Palette :=
  let r1 := create_taxonomy_diagram p
  let r2 := create_decision_tree r1.2
  let r3 := create_explainability_approaches r2.2
  let r4 := create_accuracy_interpretability r3.2
  ([r1.1, r2.1, r3.1, r4.1], r4.2)

/-- An abstract run environment: fonts, locale and plotting library version.
The script reads no command line arguments, no environment variables, no
clock and no randomness, so a run does not consult this record at all. -/
structure Env where
  fonts : String
  locale : String
  libVersion : String
deriving Repr, DecidableEq

/-- A full run of the script with no arguments in a given environment. -/
def run_script (_e : Env) : List Figure × Palette :=
  script_main COLORS

/-- Folding min over a list never exceeds the initial accumulator. -/
lemma foldl_min_le_init (l : List ℚ) (a : ℚ) : l.foldl min a ≤ a := by
  induction l generalizing a with
  | nil => exact le_refl a
  | cons x xs ih =>
    simp only [List.foldl_cons]
    exact le_trans (ih (min a x)) (min_le_left a x)

/-- Folding min over a list bounds every member from below. -/
lemma foldl_min_le_mem (l : List ℚ) (a x : ℚ) (hx : x ∈ l) : l.foldl min a ≤ x := by
  induction l generalizing a with
  | nil => cases hx
  | cons y ys ih =>
    simp only [List.foldl_cons]
    rcases List.mem_cons.mp hx with h | h
    · subst h
      exact le_trans (foldl_min_le_init ys (min a x)) (min_le_right a x)
    · exact ih (min a y) h

/-- Folding max over a list dominates the initial accumulator. -/
lemma init_le_foldl_max (l : List ℚ) (a : ℚ) : a ≤ l.foldl max a := by
  induction l generalizing a with
  | nil => exact le_refl a
  | cons x xs ih =>
    simp only [List.foldl_cons]
    exact le_trans (le_max_left a x) (ih (max a x))

/-- Folding max over a list dominates every member. -/
lemma mem_le_foldl_max (l : List ℚ) (a x : ℚ) (hx : x ∈ l) : x ≤ l.foldl max a := by
  induction l generalizing a with
  | nil => cases hx
  | cons y ys ih =>
    simp only [List.foldl_cons]
    rcases List.mem_cons.mp hx with h | h
    · subst h
      exact le_trans (le_max_right a x) (init_le_foldl_max ys (max a x))
    · exact ih (max a y) h

/-- Every child x coordinate is at least the computed bar minimum. -/
lemma childMinX_le (c : Pt) (cs : List Pt) (ch : Pt) (hch : ch ∈ c :: cs) :
    childMinX c cs ≤ ch.1 := by
  rcases List.mem_cons.mp hch with h | h
  · subst h
    exact foldl_min_le_init (cs.map Prod.fst) ch.1
  · exact foldl_min_le_mem (cs.map Prod.fst) c.1 ch.1 (List.mem_map_of_mem Prod.fst h)

/-- Every child x coordinate is at most the computed bar maximum. -/
lemma le_childMaxX (c : Pt) (cs : List Pt) (ch : Pt) (hch : ch ∈ c :: cs) :
    ch.1 ≤ childMaxX c cs := by
  rcases List.mem_cons.mp hch with h | h
  · subst h
    exact init_le_foldl_max (cs.map Prod.fst) ch.1
  · exact mem_le_foldl_max (cs.map Prod.fst) c.1 ch.1 (List.mem_map_of_mem Prod.fst h)

/-- C2: a one-to-many tree-connector call with an empty list of child anchors
draws no segments, whatever the parent anchor, color and line width; being a
total function of its arguments, it raises nothing. -/
theorem C2_empty_children_noop (pb : Pt) (color : String) (lw : ℚ) :
    draw_tree_connection pb [] color lw = [] := rfl

/-- C6: on a non-empty child list the tree connector draws the vertical from
the parent down to a bar exactly 0.3 units below the parent bottom anchor,
then the horizontal bar from the least to the greatest child x coordinate at
that height, then one vertical stub from the bar to each child top anchor,
the stubs appearing exactly in the order the caller supplied the children. -/
theorem C6_tree_connector_structure (pb : Pt) (c : Pt) (cs : List Pt)
    (color : String) (lw : ℚ) :
    draw_tree_connection pb (c :: cs) color lw =
      { p := pb, q := (pb.1, pb.2 - 3/10), color := color, lw := lw } ::
      { p := (childMinX c cs, pb.2 - 3/10), q := (childMaxX c cs, pb.2 - 3/10),
        color := color, lw := lw } ::
      (c :: cs).map (fun ch =>
        { p := (ch.1, pb.2 - 3/10), q := ch, color := color, lw := lw }) := rfl

/-- C10: on a non-empty child list the tree connector draws exactly two
segments more than there are children (the parent vertical and the bar), the
segment at index one is the horizontal bar from the least to the greatest
child x coordinate, and every child x coordinate lies within that span, so
every stub meets the bar. -/
theorem C10_segment_count_and_span (pb : Pt) (c : Pt) (cs : List Pt)
    (color : String) (lw : ℚ) :
    (draw_tree_connection pb (c :: cs) color lw).length = (c :: cs).length + 2 ∧
    (draw_tree_connection pb (c :: cs) color lw)[1]? =
      some { p := (childMinX c cs, pb.2 - 3/10), q := (childMaxX c cs, pb.2 - 3/10),
             color := color, lw := lw } ∧
    ∀ ch ∈ c :: cs, childMinX c cs ≤ ch.1 ∧ ch.1 ≤ childMaxX c cs := by
  refine ⟨?_, rfl, ?_⟩
  · simp [draw_tree_connection]
  · intro ch hch
    exact ⟨childMinX_le c cs ch hch, le_childMaxX c cs ch hch⟩

/-- C10 witness: the bounds and count at a concrete call with two children. -/
theorem C10_segment_count_and_span_witness :
    (draw_tree_connection (0, 0) ((1, 2) :: [(3, 4)]) "#616161" 1).length =
      ((1, 2) :: [((3 : ℚ), (4 : ℚ))]).length + 2 ∧
    childMinX (1, 2) [(3, 4)] ≤ (3 : ℚ) ∧ (3 : ℚ) ≤ childMaxX (1, 2) [(3, 4)] :=
  ⟨(C10_segment_count_and_span (0, 0) (1, 2) [(3, 4)] "#616161" 1).1,
   ((C10_segment_count_and_span (0, 0) (1, 2) [(3, 4)] "#616161" 1).2.2
      (3, 4) (by simp)).1,
   ((C10_segment_count_and_span (0, 0) (1, 2) [(3, 4)] "#616161" 1).2.2
      (3, 4) (by simp)).2⟩

/-- C1 counterexample: at a concrete center and zero-length text, the method
helper returns no bottom key, and the start and diamond helpers return no
center key, so not every node helper returns all of top, bottom and center. -/
theorem C1_missing_anchor_keys :
    (draw_method COLORS 0 0 "").anchors.lookup "bottom" = none ∧
    (draw_start (15/2) (93/10) "" "#27AE60").anchors.lookup "center" = none ∧
    (draw_diamond 0 0 "" (colorsGet COLORS "decision") (7/10)).anchors.lookup "center"
      = none :=
  ⟨rfl, rfl, rfl⟩

/-- C1 amended: every node helper, given a center position and zero-length
text, returns a well-formed anchor dictionary containing a top key usable by
a connector call without error; the root, category, method and box helpers
also return center; every helper except the method helper also returns
bottom; the diamond, rectangle and start helpers return no center key and
the method helper returns no bottom key. -/
theorem C1_anchor_dictionaries (p : Palette) (x y : ℚ) :
    (draw_root p x y "").anchors.lookup "top" = some (x, y + 2/5) ∧
    (draw_root p x y "").anchors.lookup "bottom" = some (x, y - 2/5) ∧
    (draw_root p x y "").anchors.lookup "center" = some (x, y) ∧
    (draw_category p x y "" "local").anchors.lookup "top" = some (x, y + 7/20) ∧
    (draw_category p x y "" "local").anchors.lookup "bottom" = some (x, y - 7/20) ∧
    (draw_category p x y "" "local").anchors.lookup "center" = some (x, y) ∧
    (draw_method p x y "").anchors.lookup "top" = some (x, y + 1/5) ∧
    (draw_method p x y "").anchors.lookup "center" = some (x, y) ∧
    (draw_method p x y "").anchors.lookup "bottom" = none ∧
    (draw_diamond x y "" (colorsGet p "decision") (7/10)).anchors.lookup "top"
      = some (x, y + 7/10) ∧
    (draw_diamond x y "" (colorsGet p "decision") (7/10)).anchors.lookup "bottom"
      = some (x, y - 7/10) ∧
    (draw_diamond x y "" (colorsGet p "decision") (7/10)).anchors.lookup "center"
      = none ∧
    (draw_rect x y "" (colorsGet p "recommend") 2 (13/20)).anchors.lookup "top"
      = some (x, y + 13/20/2) ∧
    (draw_rect x y "" (colorsGet p "recommend") 2 (13/20)).anchors.lookup "bottom"
      = some (x, y - 13/20/2) ∧
    (draw_rect x y "" (colorsGet p "recommend") 2 (13/20)).anchors.lookup "center"
      = none ∧
    (draw_start x y "" "#27AE60").anchors.lookup "top" = some (x, y + 2/5) ∧
    (draw_start x y "" "#27AE60").anchors.lookup "bottom" = some (x, y - 2/5) ∧
    (draw_start x y "" "#27AE60").anchors.lookup "center" = none ∧
    (draw_box p x y "" (colorsGet p "root") (11/5) (11/20) 8 false).anchors.lookup "top"
      = some (x, y + 11/20/2) ∧
    (draw_box p x y "" (colorsGet p "root") (11/5) (11/20) 8 false).anchors.lookup "bottom"
      = some (x, y - 11/20/2) ∧
    (draw_box p x y "" (colorsGet p "root") (11/5) (11/20) 8 false).anchors.lookup "center"
      = some (x, y) ∧
    (draw_tree_connection (anchorD (draw_root p x y "") "bottom")
      [anchorD (draw_method p x y "") "top"] (colorsGet p "connector") 2).length = 3 :=
  ⟨rfl, rfl, rfl, rfl, rfl, rfl, rfl, rfl, rfl, rfl, rfl,
   rfl, rfl, rfl, rfl, rfl, rfl, rfl, rfl, rfl, rfl, rfl⟩

/-- C9 counterexample: the if-elif chain over model names in the trade-off
routine is a second conditional branch that changes what is drawn, on top of
the text-color lookup: at the concrete names Support Vector Machines and
Random Forests it selects different offsets and alignments, and the drawn
annotation alignments of the figure reflect it. -/
theorem C9_offset_branch :
    accLabelOffset "Support Vector Machines" = (-2/5, 0, "right") ∧
    accLabelOffset "Random Forests" = (2/5, 0, "left") ∧
    (accLabelOffset "Support Vector Machines").2.2 ≠
      (accLabelOffset "Random Forests").2.2 ∧
    (create_accuracy_interpretability_fig COLORS).annots.map (fun a => a.2.2) =
      ["left", "left", "left", "left", "right", "left"] :=
  ⟨rfl, rfl, by decide, rfl⟩

/-- C9 amended: branching that affects what is drawn is limited to static
lookups over fixed small sets of literal values: the text-color rule of the
box helper returns white exactly when the fill color belongs to the fixed
four-element set, and dark slate otherwise, and the per-model label-offset
chain of the trade-off routine always returns one of three fixed triples. -/
theorem C9_static_branches (c n : String) :
    (draw_box_text_color COLORS c = "white" ↔
      c ∈ [colorsGet COLORS "root", "#3498DB", "#27AE60", "#E67E22"]) ∧
    (draw_box_text_color COLORS c = "white" ∨ draw_box_text_color COLORS c = "#2C3E50") ∧
    accLabelOffset n ∈
      [((2 : ℚ)/5, (0 : ℚ), "left"), (2/5, -1/10, "left"), (-2/5, 0, "right")] := by
  refine ⟨?_, ?_, ?_⟩
  · unfold draw_box_text_color
    split_ifs with h
    · simp [h]
    · exact iff_of_false (by decide) h
  · unfold draw_box_text_color
    split_ifs with h
    · exact Or.inl rfl
    · exact Or.inr rfl
  · unfold accLabelOffset
    split_ifs <;> simp

/-- C3: the taxonomy routine draws exactly one root node, exactly three
category nodes and exactly twenty-two leaf method nodes, twelve local, four
global and six LLM-era; it makes exactly four tree-connector calls, the
first from the root to the three categories and then exactly one call per
category whose children are precisely the top anchors of all of the methods
of that category in source order; the children of the three category calls
are pairwise disjoint point sets hanging from three distinct parents, so
each leaf is connected to exactly one category by a single connector group. -/
theorem C3_taxonomy_structure :
    ((create_taxonomy_diagram_fig COLORS).nodes.filter
      (fun n => n.shape == "root")).length = 1 ∧
    ((create_taxonomy_diagram_fig COLORS).nodes.filter
      (fun n => n.shape == "category")).length = 3 ∧
    ((create_taxonomy_diagram_fig COLORS).nodes.filter
      (fun n => n.shape == "method")).length = 22 ∧
    (taxonomy_local_methods COLORS).length = 12 ∧
    (taxonomy_global_methods COLORS).length = 4 ∧
    (taxonomy_llm_methods COLORS).length = 6 ∧
    (create_taxonomy_diagram_fig COLORS).treeCalls.length = 4 ∧
    (create_taxonomy_diagram_fig COLORS).treeCalls[0]? =
      some { parent := anchorD (taxonomy_root COLORS) "bottom",
             children := [anchorD (taxonomy_local_cat COLORS) "top",
                          anchorD (taxonomy_global_cat COLORS) "top",
                          anchorD (taxonomy_llm_cat COLORS) "top"],
             color := colorsGet COLORS "connector", lw := 2 } ∧
    (create_taxonomy_diagram_fig COLORS).treeCalls[1]? =
      some { parent := anchorD (taxonomy_local_cat COLORS) "bottom",
             children := (taxonomy_local_methods COLORS).map (fun m => anchorD m "top"),
             color := colorsGet COLORS "local", lw := 9/5 } ∧
    (create_taxonomy_diagram_fig COLORS).treeCalls[2]? =
      some { parent := anchorD (taxonomy_global_cat COLORS) "bottom",
             children := (taxonomy_global_methods COLORS).map (fun m => anchorD m "top"),
             color := colorsGet COLORS "global", lw := 3/2 } ∧
    (create_taxonomy_diagram_fig COLORS).treeCalls[3]? =
      some { parent := anchorD (taxonomy_llm_cat COLORS) "bottom",
             children := (taxonomy_llm_methods COLORS).map (fun m => anchorD m "top"),
             color := colorsGet COLORS "llm", lw := 3/2 } ∧
    List.inter ((taxonomy_local_methods COLORS).map (fun m => anchorD m "top"))
      ((taxonomy_global_methods COLORS).map (fun m => anchorD m "top")) = [] ∧
    List.inter ((taxonomy_local_methods COLORS).map (fun m => anchorD m "top"))
      ((taxonomy_llm_methods COLORS).map (fun m => anchorD m "top")) = [] ∧
    List.inter ((taxonomy_global_methods COLORS).map (fun m => anchorD m "top"))
      ((taxonomy_llm_methods COLORS).map (fun m => anchorD m "top")) = [] ∧
    anchorD (taxonomy_local_cat COLORS) "bottom" ≠
      anchorD (taxonomy_global_cat COLORS) "bottom" ∧
    anchorD (taxonomy_local_cat COLORS) "bottom" ≠
      anchorD (taxonomy_llm_cat COLORS) "bottom" ∧
    anchorD (taxonomy_global_cat COLORS) "bottom" ≠
      anchorD (taxonomy_llm_cat COLORS) "bottom" := by
  refine ⟨rfl, rfl, rfl, rfl, rfl, rfl, rfl, rfl, rfl, rfl, rfl, ?_, ?_, ?_, ?_, ?_, ?_⟩
  · with_unfolding_all rfl
  · with_unfolding_all rfl
  · with_unfolding_all rfl
  · with_unfolding_all decide
  · with_unfolding_all decide
  · with_unfolding_all decide

/-- C4: a full run writes exactly eight output files, two per routine, the
vector PDF and the raster PNG of each figure sharing a base name, in the
order taxonomy, decision tree, explainability approaches, accuracy versus
interpretability. -/
theorem C4_eight_output_files :
    (script_main COLORS).1.map Figure.saved =
      [["taxonomy_diagram" ++ ".pdf", "taxonomy_diagram" ++ ".png"],
       ["decision_tree" ++ ".pdf", "decision_tree" ++ ".png"],
       ["explainability_approaches" ++ ".pdf", "explainability_approaches" ++ ".png"],
       ["accuracy_interpretability" ++ ".pdf", "accuracy_interpretability" ++ ".png"]] ∧
    ((script_main COLORS).1.map Figure.saved).flatten.length = 8 :=
  ⟨rfl, rfl⟩

/-- C5 counterexample: the explainability approaches routine exports its two
files without ever drawing a caption string on its canvas. -/
theorem C5_no_caption_in_explainability :
    (create_explainability_approaches_fig COLORS).caption = none ∧
    (create_explainability_approaches_fig COLORS).freeTexts = [] ∧
    (create_explainability_approaches_fig COLORS).saved =
      ["explainability_approaches.pdf", "explainability_approaches.png"] :=
  ⟨rfl, rfl, rfl⟩

/-- C5 amended: the taxonomy and decision-tree routines add a caption string
to their canvas before exporting their vector and raster files; the
explainability approaches routine adds no caption at all, and the trade-off
routine adds no caption either, setting an axes title instead. -/
theorem C5_captions_amended :
    (create_taxonomy_diagram_fig COLORS).caption =
      some "Figure 4: Taxonomy of Explainable NLP Methods" ∧
    (create_taxonomy_diagram_fig COLORS).saved =
      ["taxonomy_diagram.pdf", "taxonomy_diagram.png"] ∧
    (create_decision_tree_fig COLORS).caption =
      some "Figure 2: Decision Tree for Selecting Explainability Methods" ∧
    (create_decision_tree_fig COLORS).saved =
      ["decision_tree.pdf", "decision_tree.png"] ∧
    (create_explainability_approaches_fig COLORS).caption = none ∧
    (create_accuracy_interpretability_fig COLORS).caption = none ∧
    (create_accuracy_interpretability_fig COLORS).title =
      some "Accuracy-Interpretability Trade-off in Machine Learning" :=
  ⟨rfl, rfl, rfl, rfl, rfl, rfl, rfl⟩

/-- C7: the palette is read-only: each of the four figure routines leaves
the module palette exactly as it found it, for every palette state, and so
does the whole main sequence; the palette a routine reads is the only state
passed between the routines in the embedding of the main block. -/
theorem C7_palette_read_only (p : Palette) :
    (create_taxonomy_diagram p).2 = p ∧
    (create_decision_tree p).2 = p ∧
    (create_explainability_approaches p).2 = p ∧
    (create_accuracy_interpretability p).2 = p ∧
    (script_main p).2 = p :=
  ⟨rfl, rfl, rfl, rfl, rfl⟩

/-- C8: a run of the script with no arguments is deterministic: the script
consults neither its environment record (fonts, locale, library version) nor
any other input, so any two runs produce identical figures, draw commands
and output file lists, and each figure of the full run coincides with the
figure its routine produces when run alone on the initial palette. -/
theorem C8_deterministic_run (e1 e2 : Env) :
    run_script e1 = run_script e2 ∧
    (run_script e1).1 =
      [create_taxonomy_diagram_fig COLORS, create_decision_tree_fig COLORS,
       create_explainability_approaches_fig COLORS,
       create_accuracy_interpretability_fig COLORS] ∧
    (run_script e1).2 = COLORS :=
  ⟨rfl, rfl, rfl⟩

/-- C1 witness: the amended anchor statement evaluated at the origin. -/
theorem C1_anchor_dictionaries_witness :
    (draw_method COLORS 0 0 "").anchors.lookup "top" = some (0, 0 + 1/5) ∧
    (draw_method COLORS 0 0 "").anchors.lookup "bottom" = none :=
  ⟨(C1_anchor_dictionaries COLORS 0 0).2.2.2.2.2.2.1,
   (C1_anchor_dictionaries COLORS 0 0).2.2.2.2.2.2.2.2.1⟩

/-- C2 witness: the empty-children no-op at a concrete call. -/
theorem C2_empty_children_noop_witness :
    draw_tree_connection (8, 34/5) [] "#616161" 2 = [] :=
  C2_empty_children_noop (8, 34/5) "#616161" 2

/-- C6 witness: the connector structure at a concrete one-child call. -/
theorem C6_tree_connector_structure_witness :
    (draw_tree_connection (0, 0) ((1, 2) :: []) "#616161" 1).length = 3 := by
  rw [C6_tree_connector_structure (0, 0) (1, 2) [] "#616161" 1]
  rfl

/-- C7 witness: the taxonomy routine leaves the initial palette unchanged. -/
theorem C7_palette_read_only_witness :
    (create_taxonomy_diagram COLORS).2 = COLORS :=
  (C7_palette_read_only COLORS).1

/-- C8 witness: two concrete environments give identical runs. -/
theorem C8_deterministic_run_witness :
    run_script { fonts := "DejaVu Serif", locale := "C", libVersion := "3.8" } =
      run_script { fonts := "Times", locale := "en_US", libVersion := "3.9" } :=
  (C8_deterministic_run
    { fonts := "DejaVu Serif", locale := "C", libVersion := "3.8" }
    { fonts := "Times", locale := "en_US", libVersion := "3.9" }).1

/-- C9 witness: the static branch facts at concrete inputs. -/
theorem C9_static_branches_witness :
    (draw_box_text_color COLORS "#3498DB" = "white" ∨
      draw_box_text_color COLORS "#3498DB" = "#2C3E50") ∧
    accLabelOffset "Decision Trees" ∈
      [((2 : ℚ)/5, (0 : ℚ), "left"), (2/5, -1/10, "left"), (-2/5, 0, "right")] :=
  ⟨(C9_static_branches "#3498DB" "Decision Trees").2.1,
   (C9_static_branches "#3498DB" "Decision Trees").2.2⟩

end CreateFigures
